import Mathlib

/-!
Verification development for the Content Extraction Tool
(Team 1 backend: PDF/Web extraction processors, S3 storage handler).

The Python source is shallowly embedded: every external boundary
(HTTP fetch, BeautifulSoup parse, the Diffbot and Azure cloud APIs,
PyMuPDF page/image decoding, the boto3 S3 client) is represented by the
data it hands back to the code under verification, and each processor
method becomes a pure Lean function over those inputs.  Fallible Python
code (raise/except) is modelled with `Except String`.
-/

/-! ## Model of Python `str.strip()` -/

/-- The whitespace characters stripped by Python `str.strip()`. -/
def isPySpace (c : Char) : Bool :=
  c = ' ' || c = '\t' || c = '\n' || c = '\r' || c = '\x0b' || c = '\x0c'

/-- Python `s.strip()`: drop whitespace from both ends of the string. -/
def pyStrip (s : String) : String :=
  String.mk (((s.toList.dropWhile isPySpace).reverse.dropWhile isPySpace).reverse)

/-! ## Model of Python `json.dumps` (flat dictionaries, default separators) -/

/-- A flat JSON value as used by the processors' metadata dictionaries. -/
inductive JsonVal where
  | str (s : String)
  | num (n : Int)
deriving Repr, DecidableEq

/-- Minimal JSON string escaping (backslash and double quote). -/
def jsonEscapeChar (c : Char) : String :=
  if c = '\\' then "\\\\" else if c = '\"' then "\\\"" else String.singleton c

def jsonEscape (s : String) : String :=
  String.join (s.toList.map jsonEscapeChar)

def jsonValDumps : JsonVal → String
  | .str s => "\"" ++ jsonEscape s ++ "\""
  | .num n => toString n

/-- `json.dumps` on a flat dictionary, with the default ", " / ": " separators. -/
def jsonDumps (d : List (String × JsonVal)) : String :=
  "\x7b" ++ String.intercalate ", "
    (d.map (fun kv => "\"" ++ jsonEscape kv.fst ++ "\": " ++ jsonValDumps kv.snd)) ++ "\x7d"

/-! ## Common web-extraction shapes

`HtmlPage` is the output of the BeautifulSoup parse of a fetched page:
the text of the block elements `find_all(['p','h1',...,'h6'])` in document
order, the cell texts of each `<table>`/`<tr>`/`<td>|<th>`, the `<img>` and
`<a>` elements, the `<title>` string and the description/keywords `<meta>`
contents (absent tag or attribute modelled as `none`), and `str(soup)` as
`rawHtml`. -/

structure HtmlImg where
  src : Option String
  alt : String
  title : String
deriving Repr, DecidableEq

structure HtmlAnchor where
  href : Option String
  text : String
deriving Repr, DecidableEq

structure HtmlPage where
  blocks : List String
  tableEls : List (List (List String))
  imgEls : List HtmlImg
  anchorEls : List HtmlAnchor
  titleTag : Option String
  metaDescription : Option String
  metaKeywords : Option String
  rawHtml : String
deriving Repr, DecidableEq

/-- Image descriptor of the web adapters: resolved URL plus alt/title. -/
structure ImageDescriptor where
  url : String
  alt : String
  title : String
deriving Repr, DecidableEq

/-- Link descriptor of the web adapters: resolved URL plus anchor text. -/
structure LinkDescriptor where
  url : String
  text : String
deriving Repr, DecidableEq

/-- `src if src.startswith(('http://', 'https://')) else urljoin(url, src)`.
`urljoin` (an external stdlib function) is passed in as a parameter. -/
def resolveUrl (urljoin : String → String → String) (base : String) (src : String) : String :=
  if src.startsWith "http://" || src.startsWith "https://" then src else urljoin base src

/-- The text-collection loop shared by both web adapters
(`extract_web_opensource.py` lines 98-102, `extract_web_enterprise.py`
lines 134-138): strip each block's text and keep it when non-empty. -/
def extractTextBlocks (blocks : List String) : List String :=
  blocks.filterMap (fun b =>
    let t := pyStrip b
    if t = "" then none else some t)

/-- The table loop of the local web adapter (`extract_web_opensource.py`
lines 104-113): per `<table>`, per `<tr>`, the stripped texts of the
row's `<td>`/`<th>` cells; a row is kept when its cell list is non-empty
and a table when its row list is non-empty. -/
def extractHtmlTables (tableEls : List (List (List String))) : List (List (List String)) :=
  ((tableEls.map (fun tbl =>
      (tbl.map (fun row => row.map pyStrip)).filter (fun rowData => !rowData.isEmpty))).filter
    (fun tableData => !tableData.isEmpty))

/-- The image loop shared by both web adapters: skip `<img>` without `src`,
resolve the URL, keep alt/title. -/
def extractImages (urljoin : String → String → String) (url : String)
    (imgs : List HtmlImg) : List ImageDescriptor :=
  imgs.filterMap (fun img =>
    img.src.map (fun src =>
      { url := resolveUrl urljoin url src, alt := img.alt, title := img.title }))

/-- The link loop shared by both web adapters: skip `<a>` without `href`,
resolve the URL, keep the stripped anchor text. -/
def extractLinks (urljoin : String → String → String) (url : String)
    (anchors : List HtmlAnchor) : List LinkDescriptor :=
  anchors.filterMap (fun a =>
    a.href.map (fun href =>
      { url := resolveUrl urljoin url href, text := pyStrip a.text }))

/-! ## Local web adapter — `WebProcessor` (`extract_web_opensource.py`)

The HTTP fetch is modelled by `FetchResponse`: the status/reason of the
response and, for a 200 response, the BeautifulSoup parse of its body.
The document id (an md5-and-timestamp artifact) and the timestamps are
opaque inputs. -/

structure FetchResponse where
  status : Nat
  reason : String
  page : HtmlPage
deriving Repr, DecidableEq

structure WebOsMeta where
  title : String
  url : String
  description : String
  keywords : String
deriving Repr, DecidableEq

structure WebOsContent where
  text_content : List String
  tables : List (List (List String))
  images : List ImageDescriptor
  links : List LinkDescriptor
  metadata : WebOsMeta
deriving Repr, DecidableEq

/-- `WebProcessor._extract_content` (lines 79-158): a non-200 status raises
`Exception(f"HTTP Error {status}: {reason}")`; otherwise the page is parsed
and the text/table/image/link/metadata collections are built. -/
def WebProcessor.extractContent (urljoin : String → String → String) (url : String)
    (resp : FetchResponse) : Except String WebOsContent :=
  if resp.status ≠ 200 then
    .error ("HTTP Error " ++ toString resp.status ++ ": " ++ resp.reason)
  else
    let page := resp.page
    .ok { text_content := extractTextBlocks page.blocks
        , tables := extractHtmlTables page.tableEls
        , images := extractImages urljoin url page.imgEls
        , links := extractLinks urljoin url page.anchorEls
        , metadata :=
            { title := page.titleTag.getD ""
            , url := url
            , description := page.metaDescription.getD ""
            , keywords := page.metaKeywords.getD "" } }

def webOsMetadataJson (m : WebOsMeta) : List (String × JsonVal) :=
  [("title", .str m.title), ("url", .str m.url),
   ("description", .str m.description), ("keywords", .str m.keywords)]

/-- The body of `WebProcessor._store_content` (lines 160-185): the uploads
attempted in order, each of which may raise.  The storage client's `upload`
is called here with two arguments (payload, key); payload bytes are
modelled at the text level. -/
def WebProcessor.storeAttempt (upload : String → String → Except String Unit)
    (content : WebOsContent) (docId : String) : Except String (List (String × String)) := do
  let baseFolder := "Web/Opensource/" ++ docId
  let textKey := baseFolder ++ "/text_content.txt"
  let _ ← upload (String.intercalate "\n\n" content.text_content) textKey
  let metadataKey := baseFolder ++ "/metadata.json"
  let _ ← upload (jsonDumps (webOsMetadataJson content.metadata)) metadataKey
  pure [("text", textKey), ("metadata", metadataKey)]

/-- `WebProcessor._store_content` with its `except` clause (lines 187-189):
any storage exception is caught and an empty mapping is returned. -/
def WebProcessor.storeContent (upload : String → String → Except String Unit)
    (content : WebOsContent) (docId : String) : List (String × String) :=
  match WebProcessor.storeAttempt upload content docId with
  | .ok paths => paths
  | .error _ => []

structure WebOsRecord where
  status : String
  message : String
  document_id : String
  timestamp : String
  text : List String
  tables : List (List (List String))
  images : List ImageDescriptor
  links : List LinkDescriptor
  url : String
  title : String
  description : String
  keywords : String
  storage_paths : List (String × String)
  processor : String
deriving Repr, DecidableEq

/-- `WebProcessor.process_webpage` (lines 32-71): extract (re-raising any
extraction error), store when a storage client is configured, and build
the result record with `processor = "BeautifulSoup"`. -/
def WebProcessor.processWebpage (urljoin : String → String → String) (url : String)
    (resp : FetchResponse) (hasStorage : Bool)
    (upload : String → String → Except String Unit)
    (docId now : String) : Except String WebOsRecord := do
  let content ← WebProcessor.extractContent urljoin url resp
  let paths := if hasStorage then WebProcessor.storeContent upload content docId else []
  pure { status := "success"
       , message := "Webpage processed successfully"
       , document_id := docId
       , timestamp := now
       , text := content.text_content
       , tables := content.tables
       , images := content.images
       , links := content.links
       , url := url
       , title := content.metadata.title
       , description := content.metadata.description
       , keywords := content.metadata.keywords
       , storage_paths := paths
       , processor := "BeautifulSoup" }

/-! ## Cloud web adapter — `WebEnterpriseProcessor` (`extract_web_enterprise.py`)

The Diffbot call is modelled by `DiffbotCall`: an HTTP-successful call
carrying the parsed `objects` array (a missing key modelled as `[]`), an
`aiohttp.ClientError` (including `raise_for_status`), or any other
exception.  The result of `_extract_content_fallback(url)` — the same
BeautifulSoup extraction in every branch that falls back — is passed in
once as `fallbackResult`. -/

structure WebEntContent where
  text : String
  title : String
  images : List ImageDescriptor
  links : List LinkDescriptor
  html : String
  author : Option String
  date : Option String
  siteName : Option String
deriving Repr, DecidableEq

structure DiffbotArticle where
  text : String
  title : String
  images : List ImageDescriptor
  links : List LinkDescriptor
  html : String
  author : String
  date : String
  siteName : String
deriving Repr, DecidableEq

inductive DiffbotCall where
  | success (objects : List DiffbotArticle)
  | clientError (msg : String)
  | otherFailure (msg : String)
deriving Repr, DecidableEq

/-- The article-to-content mapping of `_extract_content_diffbot`
(lines 95-106); the `article.get(..., '')` defaults are applied at the
JSON boundary of the model. -/
def WebEnterpriseProcessor.articleContent (a : DiffbotArticle) : WebEntContent :=
  { text := a.text, title := a.title, images := a.images, links := a.links
  , html := a.html, author := some a.author, date := some a.date
  , siteName := some a.siteName }

/-- `WebEnterpriseProcessor._extract_content_fallback` (lines 115-173):
fetch (any fetch/parse exception re-raised), then the BeautifulSoup
collections; `text` is the newline join of the block texts. -/
def WebEnterpriseProcessor.extractContentFallback (urljoin : String → String → String)
    (url : String) (fetch : Except String HtmlPage) : Except String WebEntContent := do
  let page ← fetch
  pure { text := String.intercalate "\n" (extractTextBlocks page.blocks)
       , title := page.titleTag.getD ""
       , images := extractImages urljoin url page.imgEls
       , links := extractLinks urljoin url page.anchorEls
       , html := page.rawHtml
       , author := none, date := none, siteName := none }

/-- `WebEnterpriseProcessor._extract_content_diffbot` (lines 70-113): an
empty `objects` array or an `aiohttp.ClientError` falls back to the
BeautifulSoup extraction of the same URL within the same request; any
other exception re-raises. -/
def WebEnterpriseProcessor.extractContentDiffbot
    (fallbackResult : Except String WebEntContent) :
    DiffbotCall → Except String WebEntContent
  | .success [] => fallbackResult
  | .success (a :: _) => .ok (WebEnterpriseProcessor.articleContent a)
  | .clientError _ => fallbackResult
  | .otherFailure msg => .error msg

/-- The engine selection of `process_webpage` (lines 36-40): Diffbot when
the token is configured, BeautifulSoup otherwise. -/
def WebEnterpriseProcessor.extractForRequest (tokenPresent : Bool) (call : DiffbotCall)
    (fallbackResult : Except String WebEntContent) : Except String WebEntContent :=
  if tokenPresent then WebEnterpriseProcessor.extractContentDiffbot fallbackResult call
  else fallbackResult

/-- The body of `WebEnterpriseProcessor._store_content` (lines 175-225):
text, html and metadata uploads in order. -/
def WebEnterpriseProcessor.storeAttempt (upload : String → String → String → Except String Unit)
    (c : WebEntContent) (docId : String) : Except String (List (String × String)) := do
  let baseFolder := "Web/Enterprise/" ++ docId
  let textKey := baseFolder ++ "/content.txt"
  let _ ← upload c.text textKey "text/plain"
  let htmlKey := baseFolder ++ "/content.html"
  let _ ← upload c.html htmlKey "text/html"
  let metadataKey := baseFolder ++ "/metadata.json"
  let _ ← upload (jsonDumps
      [("title", JsonVal.str c.title),
       ("image_count", JsonVal.num (c.images.length : Int)),
       ("link_count", JsonVal.num (c.links.length : Int))]) metadataKey "application/json"
  pure [("text", textKey), ("html", htmlKey), ("metadata", metadataKey)]

/-- `WebEnterpriseProcessor._store_content` with its `except` clause
(lines 227-229): any storage exception yields an empty mapping. -/
def WebEnterpriseProcessor.storeContent (upload : String → String → String → Except String Unit)
    (c : WebEntContent) (docId : String) : List (String × String) :=
  match WebEnterpriseProcessor.storeAttempt upload c docId with
  | .ok paths => paths
  | .error _ => []

structure WebEntRecord where
  status : String
  message : String
  document_id : String
  timestamp : String
  text : String
  title : String
  images : List ImageDescriptor
  links : List LinkDescriptor
  url : String
  processor : String
  storage_paths : List (String × String)
deriving Repr, DecidableEq

/-- `WebEnterpriseProcessor.process_webpage` (lines 29-68): select the
engine by token presence, store when a client is configured, and label
`metadata.processor` as `"Diffbot" if self.diffbot_token else
"BeautifulSoup (fallback)"` (line 60). -/
def WebEnterpriseProcessor.processWebpage (tokenPresent : Bool) (call : DiffbotCall)
    (fallbackResult : Except String WebEntContent) (hasStorage : Bool)
    (upload : String → String → String → Except String Unit)
    (url docId now : String) : Except String WebEntRecord := do
  let content ← WebEnterpriseProcessor.extractForRequest tokenPresent call fallbackResult
  let paths := if hasStorage then WebEnterpriseProcessor.storeContent upload content docId else []
  pure { status := "success"
       , message := "Webpage processed successfully"
       , document_id := docId
       , timestamp := now
       , text := content.text
       , title := content.title
       , images := content.images
       , links := content.links
       , url := url
       , processor := if tokenPresent then "Diffbot" else "BeautifulSoup (fallback)"
       , storage_paths := paths }

/-! ## Common PDF shapes (PyMuPDF boundary)

A `PdfPage` is what PyMuPDF hands back for one page: `page.get_text()`
and, per entry of `page.get_images(...)`, the outcome of
`doc.extract_image(xref)` — `some (data, ext)` on success, `none` when the
call raised or returned a falsy value (that image is skipped).  Binary
payloads are modelled at the text level. -/

structure PdfImage where
  data : String
  ext : String
  page : Nat
  index : Nat
deriving Repr, DecidableEq

structure PdfPage where
  text : String
  images : List (Option (String × String))
deriving Repr, DecidableEq

/-- The per-page image loop shared by `PDFProcessor._extract_content`
(lines 44-60) and `PDFEnterpriseProcessor._process_with_pymupdf`
(lines 359-373): 1-based page number, 0-based image index. -/
def collectPageImages (pageNum : Nat) (imgs : List (Option (String × String))) : List PdfImage :=
  imgs.enum.filterMap (fun pr =>
    pr.snd.map (fun di =>
      { data := di.fst, ext := di.snd, page := pageNum + 1, index := pr.fst }))

def collectImages (pages : List PdfPage) : List PdfImage :=
  (pages.enum.map (fun pp => collectPageImages pp.fst pp.snd.images)).flatten

/-- `PDFEnterpriseProcessor._extract_images_from_pdf` (lines 60-94): the
standalone PyMuPDF raster-extraction helper of the cloud adapter (1-based
page number and 1-based image index); it is called only from the
`_extract_content` method of that class. -/
def extractImagesFromPdf (pages : List PdfPage) : List PdfImage :=
  (pages.enum.map (fun pp =>
    pp.snd.images.enum.filterMap (fun pr =>
      pr.snd.map (fun di =>
        ({ data := di.fst, ext := di.snd, page := pp.fst + 1, index := pr.fst + 1 } : PdfImage))))).flatten

def pageTexts (pages : List PdfPage) : List String := pages.map PdfPage.text

/-! ## Local PDF adapter — `PDFProcessor` (`extract_pdf_opensource.py`) -/

structure PdfDocInfo where
  title : String
  author : String
  subject : String
  keywords : String
  file_size : Nat
  creation_date : String
  modification_date : String
deriving Repr, DecidableEq

structure PdfOsMeta where
  title : String
  author : String
  subject : String
  keywords : String
  page_count : Nat
  file_size : Nat
  creation_date : String
  modification_date : String
deriving Repr, DecidableEq

structure PdfOsContent where
  text_content : List String
  images : List PdfImage
  tables : List (List (List String))
  metadata : PdfOsMeta
deriving Repr, DecidableEq

/-- `PDFProcessor._extract_content` (lines 27-85): per page, keep
`page.get_text()` only when non-blank after stripping (the unstripped
text is what gets appended); collect images; `tables` is always empty;
`page_count` is the page count of the open document. -/
def PDFProcessor.extractContent (pages : List PdfPage) (info : PdfDocInfo) : PdfOsContent :=
  { text_content := (pageTexts pages).filter (fun t => pyStrip t != "")
  , images := collectImages pages
  , tables := []
  , metadata :=
      { title := info.title, author := info.author, subject := info.subject
      , keywords := info.keywords, page_count := pages.length
      , file_size := info.file_size, creation_date := info.creation_date
      , modification_date := info.modification_date } }

def pdfOsMetadataJson (m : PdfOsMeta) : List (String × JsonVal) :=
  [("title", .str m.title), ("author", .str m.author), ("subject", .str m.subject),
   ("keywords", .str m.keywords), ("page_count", .num (m.page_count : Int)),
   ("file_size", .num (m.file_size : Int)), ("creation_date", .str m.creation_date),
   ("modification_date", .str m.modification_date)]

/-- The body of `PDFProcessor._store_content` (lines 87-123): text,
metadata, then (when any) the image payloads, uploaded in order with the
two-argument `upload` call of this module. -/
def PDFProcessor.storeAttempt (upload : String → String → Except String Unit)
    (content : PdfOsContent) (docId : String) : Except String (List (String × String)) := do
  let baseFolder := "PDF/Opensource/" ++ docId
  let textKey := baseFolder ++ "/text_content.txt"
  let _ ← upload (String.intercalate "\n\n" content.text_content) textKey
  let metadataKey := baseFolder ++ "/metadata.json"
  let _ ← upload (jsonDumps (pdfOsMetadataJson content.metadata)) metadataKey
  let imagePaths ←
    if content.images.isEmpty then pure []
    else
      content.images.enum.foldlM (fun acc pr => do
        let imgKey := baseFolder ++ "/images/image_" ++ toString pr.fst ++ "." ++ pr.snd.ext
        let _ ← upload pr.snd.data imgKey
        pure (acc ++ [("image_" ++ toString pr.fst, imgKey)])) []
  pure ([("text", textKey), ("metadata", metadataKey)] ++ imagePaths)

/-- `PDFProcessor._store_content` with its `except` clause (lines 125-127):
any storage exception yields an empty mapping. -/
def PDFProcessor.storeContent (upload : String → String → Except String Unit)
    (content : PdfOsContent) (docId : String) : List (String × String) :=
  match PDFProcessor.storeAttempt upload content docId with
  | .ok paths => paths
  | .error _ => []

/-- The image descriptors of the local adapter's result (lines 162-170):
page/index/ext without the binary payload. -/
structure ImgRef where
  page : Nat
  index : Nat
  ext : String
deriving Repr, DecidableEq

structure PdfOsRecord where
  document_id : String
  text : List String
  tables : List (List (List String))
  images : Option (List ImgRef)
  meta : PdfOsMeta
  storage_paths : List (String × String)
  processor : String
  timestamp : String
deriving Repr, DecidableEq

/-- `PDFProcessor.process_pdf` (lines 129-176): extract, store (storage
failures already degraded to an empty mapping inside `_store_content`),
and build the result; the `images` entry is added only when images were
extracted. -/
def PDFProcessor.processPdf (pages : List PdfPage) (info : PdfDocInfo) (hasStorage : Bool)
    (upload : String → String → Except String Unit)
    (docId now : String) : Except String PdfOsRecord :=
  let content := PDFProcessor.extractContent pages info
  let paths := if hasStorage then PDFProcessor.storeContent upload content docId else []
  .ok { document_id := docId
      , text := content.text_content
      , tables := content.tables
      , images :=
          if content.images.isEmpty then none
          else some (content.images.map (fun i => { page := i.page, index := i.index, ext := i.ext }))
      , meta := content.metadata
      , storage_paths := paths
      , processor := "PyMuPDF"
      , timestamp := now }

/-! ## Cloud PDF adapter — `PDFEnterpriseProcessor` (`extract_pdf_enterprise.py`)

The Azure Document Intelligence result is modelled by `AzureResult`:
pages with their ordered line contents, tables with `row_count`,
`column_count` and the reported cells, and the key-value pairs (a key or
value element may be absent). -/

structure AzureCell where
  row_index : Nat
  column_index : Nat
  content : String
deriving Repr, DecidableEq

structure AzureTable where
  row_count : Nat
  column_count : Nat
  cells : List AzureCell
deriving Repr, DecidableEq

structure AzurePage where
  lines : List String
deriving Repr, DecidableEq

structure AzureKV where
  key : Option String
  value : Option String
deriving Repr, DecidableEq

structure AzureResult where
  pages : List AzurePage
  tables : List AzureTable
  key_value_pairs : List AzureKV
deriving Repr, DecidableEq

/-- The `next((cell for cell in table.cells if ...), None)` lookup of
`_process_with_azure` (lines 300-303): the first reported cell at a
position, defaulting to the empty string. -/
def cellLookup (cells : List AzureCell) (r c : Nat) : String :=
  match cells.find? (fun cell => cell.row_index == r && cell.column_index == c) with
  | some cell => cell.content
  | none => ""

/-- The table normalization of `_process_with_azure` (lines 295-304): a
grid of `row_count` rows by `column_count` columns, each position filled
by the first reported cell there or the empty string. -/
def processAzureTable (t : AzureTable) : List (List String) :=
  (List.range t.row_count).map (fun r =>
    (List.range t.column_count).map (fun c => cellLookup t.cells r c))

/-- Max row index over the reported cells (the "R" of the claim; the
unused `_extract_content` method sizes its grid this way, lines 123-124). -/
def maxRowIndex (t : AzureTable) : Nat :=
  t.cells.foldl (fun m cell => max m cell.row_index) 0

/-- Max column index over the reported cells (the "C" of the claim). -/
def maxColIndex (t : AzureTable) : Nat :=
  t.cells.foldl (fun m cell => max m cell.column_index) 0

structure EntMeta where
  page_count : Nat
  processor : String
  timestamp : String
deriving Repr, DecidableEq

/-- The dictionary returned by `_process_with_azure` / `_process_with_pymupdf`:
`key_value_pairs` and `images` are `Option` because each of the two
methods omits one of those keys, and `process_pdf` reads them with
`result.get(..., default)`. -/
structure EntExtractResult where
  text_content : List String
  tables : List (List (List String))
  key_value_pairs : Option (List (String × String))
  images : Option (List PdfImage)
  metadata : EntMeta
deriving Repr, DecidableEq

/-- `PDFEnterpriseProcessor._process_with_azure` (lines 277-321): page
texts are the newline joins of the line contents; tables are normalized
per `processAzureTable` and kept when non-empty; key-value pairs are kept
when both elements are present; **no `images` key is produced**. -/
def PDFEnterpriseProcessor.processWithAzure (res : AzureResult) (now : String) : EntExtractResult :=
  { text_content := res.pages.map (fun p => String.intercalate "\n" p.lines)
  , tables := (res.tables.map processAzureTable).filter (fun td => !td.isEmpty)
  , key_value_pairs := some (res.key_value_pairs.filterMap (fun kv =>
      match kv.key, kv.value with
      | some k, some v => some (k, v)
      | _, _ => none))
  , images := none
  , metadata := { page_count := res.pages.length
                , processor := "Azure Document Intelligence", timestamp := now } }

/-- `PDFEnterpriseProcessor._process_with_pymupdf` (lines 344-388): the
fallback path; non-blank page texts, inline image collection, no tables,
no `key_value_pairs` key. -/
def PDFEnterpriseProcessor.processWithPymupdf (pages : List PdfPage) (now : String) : EntExtractResult :=
  { text_content := (pageTexts pages).filter (fun t => pyStrip t != "")
  , tables := []
  , key_value_pairs := none
  , images := some (collectImages pages)
  , metadata := { page_count := pages.length
                , processor := "PyMuPDF (fallback)", timestamp := now } }

/-- Models `pd.DataFrame(table).to_csv(index=False)`: a header row of
column positions followed by the comma-joined rows (external pandas
behaviour, abstracted). -/
def tableToCsv (table : List (List String)) : String :=
  let header := String.intercalate "," ((List.range (table.headD []).length).map toString)
  String.intercalate "\n" (header :: table.map (fun row => String.intercalate "," row))

/-- The body of `PDFEnterpriseProcessor._store_content` (lines 154-206):
text, per-table CSVs, then metadata, uploaded in order.  Unlike the other
three processors, its `except` clause (lines 208-210) **re-raises**, so
this attempt is the whole of `_store_content`. -/
def PDFEnterpriseProcessor.storeAttempt (upload : String → String → String → Except String Unit)
    (content : EntExtractResult) (docId : String) : Except String (List (String × String)) := do
  let baseFolder := "PDF/Enterprise/" ++ docId
  let textKey := baseFolder ++ "/text_content.txt"
  let _ ← upload (String.intercalate "\n\n" content.text_content) textKey "text/plain"
  let tablePaths ← content.tables.enum.foldlM (fun acc pr => do
    let tableKey := baseFolder ++ "/table_" ++ toString (pr.fst + 1) ++ ".csv"
    let _ ← upload (tableToCsv pr.snd) tableKey "text/csv"
    pure (acc ++ [("table_" ++ toString (pr.fst + 1), tableKey)])) []
  let metadataKey := baseFolder ++ "/metadata.json"
  let _ ← upload (jsonDumps
      [("page_count", JsonVal.num (content.metadata.page_count : Int)),
       ("processor", JsonVal.str content.metadata.processor),
       ("timestamp", JsonVal.str content.metadata.timestamp)]) metadataKey "application/json"
  pure ([("text", textKey)] ++ tablePaths ++ [("metadata", metadataKey)])

structure PdfEntRecord where
  status : String
  message : String
  document_id : String
  timestamp : String
  text : List String
  tables : List (List (List String))
  images : List PdfImage
  key_value_pairs : List (String × String)
  filename : String
  processor : String
  page_count : Nat
  storage_paths : List (String × String)
deriving Repr, DecidableEq

/-- The body of `PDFEnterpriseProcessor.process_pdf` (lines 212-247):
`extraction` is the outcome of `_extract_content_azure` /
`_extract_content_fallback` as selected by `use_fallback`; a configured
storage client triggers `_store_content`, whose failure propagates. -/
def PDFEnterpriseProcessor.processPdfCore (useFallback : Bool)
    (extraction : Except String EntExtractResult) (hasStorage : Bool)
    (upload : String → String → String → Except String Unit)
    (filename docTs now : String) : Except String PdfEntRecord := do
  let docId := "pdf_" ++ (if useFallback then "fallback" else "azure") ++ "_" ++ filename ++ "_" ++ docTs
  let result ← extraction
  let paths ← if hasStorage then PDFEnterpriseProcessor.storeAttempt upload result docId else pure []
  pure { status := "success"
       , message := "PDF processed successfully"
       , document_id := docId
       , timestamp := now
       , text := result.text_content
       , tables := result.tables
       , images := result.images.getD []
       , key_value_pairs := result.key_value_pairs.getD []
       , filename := filename
       , processor := if useFallback then "PyMuPDF (fallback)" else "Azure Document Intelligence"
       , page_count := result.metadata.page_count
       , storage_paths := paths }

/-- `PDFEnterpriseProcessor.process_pdf` with its `except` clause
(lines 249-254): any error is re-raised as
`HTTPException(500, detail=f"Error processing PDF: {e}")`. -/
def PDFEnterpriseProcessor.processPdf (useFallback : Bool)
    (extraction : Except String EntExtractResult) (hasStorage : Bool)
    (upload : String → String → String → Except String Unit)
    (filename docTs now : String) : Except String PdfEntRecord :=
  match PDFEnterpriseProcessor.processPdfCore useFallback extraction hasStorage upload filename docTs now with
  | .ok r => .ok r
  | .error e => .error ("Error processing PDF: " ++ e)

/-! ## Storage handler — `StorageHandler` (`s3/s3.py`) -/

/-- The `file_data` argument of `StorageHandler.upload`: a file-like
object (payload bytes modelled at the text level) or a dictionary. -/
inductive FileData where
  | stream (payload : String)
  | dict (d : List (String × JsonVal))
deriving Repr, DecidableEq

/-- The dictionary branch of `upload` (lines 41-45): a dict is serialized
with `json.dumps(...).encode('utf-8')` and the content type is forced to
`application/json`; a stream is passed through with the caller's
content type. -/
def uploadPayload : FileData → String → String × String
  | .dict d, _ => (jsonDumps d, "application/json")
  | .stream p, ct => (p, ct)

/-- `StorageHandler.upload` (lines 31-61): build the payload/content type,
hand them to `s3_client.upload_fileobj` (modelled by `s3put`: payload,
key, content type), re-raise its exception, and return `file_path` on
success. -/
def StorageHandler.upload (s3put : String → String → String → Except String Unit)
    (file_data : FileData) (file_path content_type : String) : Except String String := do
  let pc := uploadPayload file_data content_type
  let _ ← s3put pc.fst file_path pc.snd
  pure file_path

/-! ## Concrete example values used by the claim theorems -/

def c1FbContent : WebEntContent :=
  { text := "local text", title := "T", images := [], links := [], html := "h"
  , author := none, date := none, siteName := none }

def c1Upload : String → String → String → Except String Unit := fun _ _ _ => .ok ()

def c1Rec : WebEntRecord :=
  { status := "success", message := "Webpage processed successfully", document_id := "d2"
  , timestamp := "t2", text := "local text", title := "T", images := [], links := []
  , url := "http://x", processor := "BeautifulSoup (fallback)", storage_paths := [] }

def c2EntResult : EntExtractResult :=
  { text_content := ["page text"], tables := [], key_value_pairs := some [], images := none
  , metadata := { page_count := 1, processor := "Azure Document Intelligence", timestamp := "ts" } }

def c2FailUpload3 : String → String → String → Except String Unit :=
  fun _ _ _ => .error "upload failed"

def c2FailUpload2 : String → String → Except String Unit := fun _ _ => .error "upload failed"

def c2WebC : WebEntContent :=
  { text := "tx", title := "ti", images := [], links := [], html := "hh"
  , author := none, date := none, siteName := none }

def c2Page : HtmlPage :=
  { blocks := [], tableEls := [], imgEls := [], anchorEls := []
  , titleTag := none, metaDescription := none, metaKeywords := none, rawHtml := "" }

def c2Resp : FetchResponse := { status := 200, reason := "OK", page := c2Page }

def c2OsContent : WebOsContent :=
  { text_content := [], tables := [], images := [], links := []
  , metadata := { title := "", url := "u", description := "", keywords := "" } }

def c2Info : PdfDocInfo :=
  { title := "", author := "", subject := "", keywords := "", file_size := 0
  , creation_date := "", modification_date := "" }

def c3BadTable : AzureTable :=
  { row_count := 1, column_count := 1
  , cells := [{ row_index := 1, column_index := 0, content := "x" }] }

def c3GoodTable : AzureTable :=
  { row_count := 2, column_count := 1
  , cells := [{ row_index := 0, column_index := 0, content := "a" },
              { row_index := 1, column_index := 0, content := "b" }] }

def c4Page : HtmlPage :=
  { blocks := [], tableEls := [[["a"], ["b", "c"]]], imgEls := [], anchorEls := []
  , titleTag := none, metaDescription := none, metaKeywords := none, rawHtml := "" }

def c4Resp : FetchResponse := { status := 200, reason := "OK", page := c4Page }

def c4Upload : String → String → Except String Unit := fun _ _ => .ok ()

def c4Res : AzureResult :=
  { pages := []
  , tables := [{ row_count := 1, column_count := 2
               , cells := [{ row_index := 0, column_index := 0, content := "x" }] }]
  , key_value_pairs := [] }

def c5Pages : List PdfPage := [{ text := "hello", images := [] }, { text := " ", images := [] }]

def c5Info : PdfDocInfo :=
  { title := "", author := "", subject := "", keywords := "", file_size := 7
  , creation_date := "", modification_date := "" }

def c8Page : HtmlPage :=
  { blocks := [], tableEls := [], imgEls := [], anchorEls := []
  , titleTag := none, metaDescription := none, metaKeywords := none, rawHtml := "" }

def c8Resp : FetchResponse := { status := 404, reason := "Not Found", page := c8Page }

def c8Upload : String → String → Except String Unit := fun _ _ => .ok ()

def c9S3 : String → String → String → Except String Unit := fun _ _ _ => .ok ()

def c10Page : HtmlPage :=
  { blocks := ["hello", "  "], tableEls := [[["a", "b"], []], []], imgEls := [], anchorEls := []
  , titleTag := none, metaDescription := none, metaKeywords := none, rawHtml := "" }

def c10Resp : FetchResponse := { status := 200, reason := "OK", page := c10Page }

def c10Content : WebOsContent :=
  { text_content := ["hello"], tables := [[["a", "b"]]], images := [], links := []
  , metadata := { title := "", url := "u", description := "", keywords := "" } }

/-! ## Helper lemmas -/

theorem head?_dropWhile_false {α : Type} (p : α → Bool) (l : List α) (x : α)
    (h : (List.dropWhile p l).head? = some x) : p x = false := by
  have hm := List.head?_dropWhile_not p l
  rw [h] at hm
  exact hm

theorem dropWhile_eq_self_of_head_false {α : Type} (p : α → Bool) (l : List α)
    (h : ∀ x, l.head? = some x → p x = false) : List.dropWhile p l = l := by
  cases l with
  | nil => rfl
  | cons a t =>
    have ha : p a = false := h a rfl
    simp [List.dropWhile_cons, ha]

theorem dropWhile_idem {α : Type} (p : α → Bool) (l : List α) :
    List.dropWhile p (List.dropWhile p l) = List.dropWhile p l := by
  apply dropWhile_eq_self_of_head_false
  intro x hx
  exact head?_dropWhile_false p l x hx

theorem getLast?_of_suffix_ne_nil {α : Type} {l1 l2 : List α}
    (h : l1 <:+ l2) (hne : l1 ≠ []) : l2.getLast? = l1.getLast? := by
  obtain ⟨t, ht⟩ := h
  subst ht
  rw [List.getLast?_append]
  cases h1 : l1.getLast? with
  | none => exact absurd (List.getLast?_eq_none_iff.mp h1) hne
  | some a => simp

/-- Python `strip` is idempotent: stripping an already stripped string is
the identity. -/
theorem pyStrip_idem (s : String) : pyStrip (pyStrip s) = pyStrip s := by
  unfold pyStrip
  have htl : ∀ cs : List Char, (String.mk cs).toList = cs := fun _ => rfl
  rw [htl]
  set p := isPySpace with hp
  set A := s.toList.dropWhile p with hA
  set B := A.reverse.dropWhile p with hB
  have step1 : List.dropWhile p B.reverse = B.reverse := by
    apply dropWhile_eq_self_of_head_false
    intro x hx
    rw [List.head?_reverse] at hx
    have hBne : B ≠ [] := by
      intro hnil
      rw [hnil] at hx
      simp at hx
    have hsuf : B <:+ A.reverse := List.dropWhile_suffix p
    have hlast : A.reverse.getLast? = B.getLast? := getLast?_of_suffix_ne_nil hsuf hBne
    rw [List.getLast?_reverse] at hlast
    have hx2 : A.head? = some x := by rw [hlast, hx]
    exact head?_dropWhile_false p s.toList x hx2
  rw [step1, List.reverse_reverse, hB, dropWhile_idem]

/-- Element of a grid at row `r`, column `c` (empty string when out of
range). -/
def gridCell (g : List (List String)) (r c : Nat) : String :=
  (g.getD r []).getD c ""

theorem getD_map_range {α : Type} (f : Nat → α) (n r : Nat) (d : α) (h : r < n) :
    ((List.range n).map f).getD r d = f r := by
  rw [List.getD_eq_getElem?_getD, List.getElem?_map, List.getElem?_range h]
  rfl

theorem processAzureTable_length (t : AzureTable) :
    (processAzureTable t).length = t.row_count := by
  simp [processAzureTable]

theorem processAzureTable_row_length (t : AzureTable) :
    ∀ row ∈ processAzureTable t, row.length = t.column_count := by
  intro row hrow
  obtain ⟨r, _, hrw⟩ := List.mem_map.mp hrow
  rw [← hrw]
  simp

theorem processAzureTable_cell (t : AzureTable) (r c : Nat)
    (hr : r < t.row_count) (hc : c < t.column_count) :
    gridCell (processAzureTable t) r c = cellLookup t.cells r c := by
  unfold gridCell processAzureTable
  rw [getD_map_range _ _ _ _ hr, getD_map_range _ _ _ _ hc]

/-- A table is rectangular when every row has the length of the first row. -/
def rectangularB (t : List (List String)) : Bool :=
  t.all (fun row => row.length == (t.headD []).length)

theorem rectangularB_of_const_rows {t : List (List String)} {n : Nat}
    (h : ∀ row ∈ t, row.length = n) : rectangularB t = true := by
  cases t with
  | nil => rfl
  | cons r rest =>
    have hr : r.length = n := h r (List.mem_cons_self r rest)
    rw [rectangularB, List.all_eq_true]
    intro row hrow
    have := h row hrow
    simp [List.headD, hr, this]

/-! ## Claim theorems -/

/-- Claim C1, counterexample to the claim as stated: with the Diffbot
token configured and a Diffbot call that returns zero objects, the
request falls back to BeautifulSoup (the returned text is the fallback
extraction's text), yet `metadata.processor` is `"Diffbot"`, not the
BeautifulSoup local engine. -/
theorem c1_processor_label_cex :
    (WebEnterpriseProcessor.processWebpage true (.success []) (.ok c1FbContent) false c1Upload
        "http://x" "d1" "t1").map WebEntRecord.processor = .ok "Diffbot"
    ∧ (WebEnterpriseProcessor.processWebpage true (.success []) (.ok c1FbContent) false c1Upload
        "http://x" "d1" "t1").map WebEntRecord.text = .ok "local text"
    ∧ ("Diffbot" : String) ≠ "BeautifulSoup (fallback)" := by
  refine ⟨rfl, rfl, ?_⟩
  decide

/-- Claim C1, amended: `metadata.processor` of a successful
`process_webpage` is `"Diffbot"` exactly when the Diffbot token is
configured and `"BeautifulSoup (fallback)"` otherwise, regardless of
whether the request actually fell back to BeautifulSoup at runtime
(`extract_web_enterprise.py` line 60). -/
theorem c1_processor_label (tok : Bool) (call : DiffbotCall) (fb : Except String WebEntContent)
    (hasStorage : Bool) (upload : String → String → String → Except String Unit)
    (url docId now : String) (r : WebEntRecord)
    (h : WebEnterpriseProcessor.processWebpage tok call fb hasStorage upload url docId now = .ok r) :
    r.processor = if tok then "Diffbot" else "BeautifulSoup (fallback)" := by
  unfold WebEnterpriseProcessor.processWebpage at h
  cases hc : WebEnterpriseProcessor.extractForRequest tok call fb with
  | error e =>
    rw [hc] at h
    exact absurd h (by simp [Bind.bind, Except.bind])
  | ok c =>
    rw [hc] at h
    simp only [Bind.bind, Except.bind, pure, Except.pure, Except.ok.injEq] at h
    rw [← h]

/-- Witness for `c1_processor_label` at a concrete no-token request. -/
theorem c1_processor_label_witness :
    c1Rec.processor = if false then "Diffbot" else "BeautifulSoup (fallback)" :=
  c1_processor_label false (.success []) (.ok c1FbContent) false c1Upload "http://x" "d2" "t2"
    c1Rec rfl

/-- Claim C2, counterexample to the claim as stated: in the cloud PDF
processor, a successful extraction followed by a storage-upload exception
fails the whole request (`_store_content` re-raises, lines 208-210, and
`process_pdf` turns it into an HTTP 500). -/
theorem c2_persistence_cex :
    PDFEnterpriseProcessor.processPdf false (.ok c2EntResult) true c2FailUpload3
      "f.pdf" "dts" "ts" = .error "Error processing PDF: upload failed" := rfl

/-- Claim C2, amended: for the web cloud, web local and PDF local
processors, a persistence exception after a successful extraction still
yields a successful record with `metadata.storage_paths` empty; the PDF
cloud processor (the counterexample) instead propagates it. -/
theorem c2_persistence_amended :
    (∀ (upload : String → String → String → Except String Unit) (c : WebEntContent)
       (docId e : String) (tok : Bool) (call : DiffbotCall) (fb : Except String WebEntContent)
       (url now : String),
       WebEnterpriseProcessor.extractForRequest tok call fb = .ok c →
       WebEnterpriseProcessor.storeAttempt upload c docId = .error e →
       ∃ r, WebEnterpriseProcessor.processWebpage tok call fb true upload url docId now = .ok r
            ∧ r.storage_paths = [])
    ∧ (∀ (urljoin : String → String → String) (url : String) (resp : FetchResponse)
         (c : WebOsContent) (upload : String → String → Except String Unit) (docId e now : String),
       WebProcessor.extractContent urljoin url resp = .ok c →
       WebProcessor.storeAttempt upload c docId = .error e →
       ∃ r, WebProcessor.processWebpage urljoin url resp true upload docId now = .ok r
            ∧ r.storage_paths = [])
    ∧ (∀ (pages : List PdfPage) (info : PdfDocInfo)
         (upload : String → String → Except String Unit) (docId e now : String),
       PDFProcessor.storeAttempt upload (PDFProcessor.extractContent pages info) docId = .error e →
       ∃ r, PDFProcessor.processPdf pages info true upload docId now = .ok r
            ∧ r.storage_paths = []) := by
  refine ⟨?_, ?_, ?_⟩
  · intro upload c docId e tok call fb url now h1 h2
    have hsc : WebEnterpriseProcessor.storeContent upload c docId = [] := by
      unfold WebEnterpriseProcessor.storeContent
      rw [h2]
    have heq : WebEnterpriseProcessor.processWebpage tok call fb true upload url docId now =
        .ok { status := "success", message := "Webpage processed successfully"
            , document_id := docId, timestamp := now, text := c.text, title := c.title
            , images := c.images, links := c.links, url := url
            , processor := if tok then "Diffbot" else "BeautifulSoup (fallback)"
            , storage_paths := WebEnterpriseProcessor.storeContent upload c docId } := by
      unfold WebEnterpriseProcessor.processWebpage
      rw [h1]
      rfl
    rw [hsc] at heq
    exact ⟨_, heq, rfl⟩
  · intro urljoin url resp c upload docId e now h1 h2
    have hsc : WebProcessor.storeContent upload c docId = [] := by
      unfold WebProcessor.storeContent
      rw [h2]
    have heq : WebProcessor.processWebpage urljoin url resp true upload docId now =
        .ok { status := "success", message := "Webpage processed successfully"
            , document_id := docId, timestamp := now, text := c.text_content
            , tables := c.tables, images := c.images, links := c.links, url := url
            , title := c.metadata.title, description := c.metadata.description
            , keywords := c.metadata.keywords
            , storage_paths := WebProcessor.storeContent upload c docId
            , processor := "BeautifulSoup" } := by
      unfold WebProcessor.processWebpage
      rw [h1]
      rfl
    rw [hsc] at heq
    exact ⟨_, heq, rfl⟩
  · intro pages info upload docId e now h
    have hsc : PDFProcessor.storeContent upload (PDFProcessor.extractContent pages info) docId
        = [] := by
      unfold PDFProcessor.storeContent
      rw [h]
    have heq : PDFProcessor.processPdf pages info true upload docId now =
        .ok { document_id := docId
            , text := (PDFProcessor.extractContent pages info).text_content
            , tables := (PDFProcessor.extractContent pages info).tables
            , images :=
                if (PDFProcessor.extractContent pages info).images.isEmpty then none
                else some ((PDFProcessor.extractContent pages info).images.map
                  (fun i => { page := i.page, index := i.index, ext := i.ext }))
            , meta := (PDFProcessor.extractContent pages info).metadata
            , storage_paths :=
                PDFProcessor.storeContent upload (PDFProcessor.extractContent pages info) docId
            , processor := "PyMuPDF", timestamp := now } := rfl
    rw [hsc] at heq
    exact ⟨_, heq, rfl⟩

/-- Witness for `c2_persistence_amended`: all three processors at concrete
inputs with a failing upload. -/
theorem c2_persistence_amended_witness :
    (∃ r, WebEnterpriseProcessor.processWebpage false (.success []) (.ok c2WebC) true
            c2FailUpload3 "u" "d" "t" = .ok r ∧ r.storage_paths = [])
    ∧ (∃ r, WebProcessor.processWebpage (fun _ s => s) "u" c2Resp true c2FailUpload2
              "d" "t" = .ok r ∧ r.storage_paths = [])
    ∧ (∃ r, PDFProcessor.processPdf [] c2Info true c2FailUpload2 "d" "t" = .ok r
            ∧ r.storage_paths = []) :=
  ⟨c2_persistence_amended.1 c2FailUpload3 c2WebC "d" "upload failed" false (.success [])
      (.ok c2WebC) "u" "t" rfl rfl,
   c2_persistence_amended.2.1 (fun _ s => s) "u" c2Resp c2OsContent c2FailUpload2 "d"
      "upload failed" "t" rfl rfl,
   c2_persistence_amended.2.2 [] c2Info c2FailUpload2 "d" "upload failed" "t" rfl⟩

/-- Claim C3, counterexample to the claim as stated: the live
normalization (`_process_with_azure`) sizes the grid by the engine's
`row_count`/`column_count`, not by max cell indices.  For a table whose
engine-reported `row_count` is 1 while its cells report max row index 1,
the grid has 1 row (not R+1 = 2) and drops the reported cell. -/
theorem c3_grid_dimensions_cex :
    processAzureTable c3BadTable = [[""]]
    ∧ maxRowIndex c3BadTable = 1
    ∧ (processAzureTable c3BadTable).length ≠ maxRowIndex c3BadTable + 1 := by
  refine ⟨by decide, by decide, by decide⟩

/-- Claim C3, amended: the normalized grid of `_process_with_azure` has
exactly `row_count` rows of exactly `column_count` columns; every
in-range position holds the first engine-reported cell at that position
(empty string if none); and when the engine's counts are consistent with
its cells (`row_count = R+1`, `column_count = C+1`), the claimed
(R+1)×(C+1) dimensions follow. -/
theorem c3_grid_dimensions (t : AzureTable) :
    (processAzureTable t).length = t.row_count
    ∧ (∀ row ∈ processAzureTable t, row.length = t.column_count)
    ∧ (∀ r c, r < t.row_count → c < t.column_count →
        gridCell (processAzureTable t) r c = cellLookup t.cells r c)
    ∧ (t.row_count = maxRowIndex t + 1 → t.column_count = maxColIndex t + 1 →
        (processAzureTable t).length = maxRowIndex t + 1
        ∧ ∀ row ∈ processAzureTable t, row.length = maxColIndex t + 1) := by
  refine ⟨processAzureTable_length t, processAzureTable_row_length t,
    fun r c hr hc => processAzureTable_cell t r c hr hc, fun h1 h2 => ⟨?_, ?_⟩⟩
  · rw [processAzureTable_length, h1]
  · intro row hrow
    rw [processAzureTable_row_length t row hrow, h2]

/-- Witness for `c3_grid_dimensions` at a concrete consistent table. -/
theorem c3_grid_dimensions_witness :
    gridCell (processAzureTable c3GoodTable) 1 0 = cellLookup c3GoodTable.cells 1 0 :=
  (c3_grid_dimensions c3GoodTable).2.2.1 1 0 (by decide) (by decide)

/-- Claim C4, counterexample to the claim as stated: the local web
adapter copies each HTML row's cell count without padding, so a ragged
source table yields a non-rectangular table in the record's `tables`. -/
theorem c4_tables_rectangular_cex :
    (WebProcessor.processWebpage (fun _ r => r) "u" c4Resp false c4Upload "d" "t").map
        WebOsRecord.tables = .ok [[["a"], ["b", "c"]]]
    ∧ rectangularB [["a"], ["b", "c"]] = false := by
  refine ⟨rfl, by decide⟩

/-- Claim C4, amended: tables produced by the cloud PDF adapter's
normalization are rectangular (every row has `column_count` cells), and
the PDF local paths produce no tables at all; the local web adapter (the
counterexample) preserves the per-row cell counts of the source HTML,
which need not be equal. -/
theorem c4_tables_rectangular :
    (∀ (res : AzureResult) (now : String) (tbl : List (List String)),
       tbl ∈ (PDFEnterpriseProcessor.processWithAzure res now).tables → rectangularB tbl = true)
    ∧ (∀ (pages : List PdfPage) (now : String),
       (PDFEnterpriseProcessor.processWithPymupdf pages now).tables = [])
    ∧ (∀ (pages : List PdfPage) (info : PdfDocInfo),
       (PDFProcessor.extractContent pages info).tables = []) := by
  refine ⟨?_, fun _ _ => rfl, fun _ _ => rfl⟩
  intro res now tbl htbl
  dsimp only [PDFEnterpriseProcessor.processWithAzure] at htbl
  have h1 := (List.mem_filter.mp htbl).1
  obtain ⟨at0, _, heq⟩ := List.mem_map.mp h1
  rw [← heq]
  exact rectangularB_of_const_rows (processAzureTable_row_length at0)

/-- Witness for `c4_tables_rectangular` at a concrete Azure result. -/
theorem c4_tables_rectangular_witness :
    rectangularB [["x", ""]] = true :=
  c4_tables_rectangular.1 c4Res "t" [["x", ""]] (by decide)

/-- Claim C5, confirmed: for an N-page PDF, the local PyMuPDF extraction
keeps at most N text entries — a page whose text is blank after stripping
contributes no entry — each kept entry is the (unstripped) extracted text
of its page, page order is preserved (the kept entries form a sublist of
the per-page texts), every non-blank page contributes its text, and
`metadata.page_count` is N.  The enterprise fallback path
(`_process_with_pymupdf`) produces the same text entries. -/
theorem c5_pymupdf_text (pages : List PdfPage) (info : PdfDocInfo) (now : String) :
    (PDFProcessor.extractContent pages info).text_content.length ≤ pages.length
    ∧ List.Sublist (PDFProcessor.extractContent pages info).text_content (pageTexts pages)
    ∧ (∀ t ∈ (PDFProcessor.extractContent pages info).text_content, pyStrip t ≠ "")
    ∧ (∀ i (h : i < pages.length), pyStrip (pages.get ⟨i, h⟩).text ≠ "" →
        (pages.get ⟨i, h⟩).text ∈ (PDFProcessor.extractContent pages info).text_content)
    ∧ (PDFProcessor.extractContent pages info).metadata.page_count = pages.length
    ∧ (PDFEnterpriseProcessor.processWithPymupdf pages now).text_content =
        (PDFProcessor.extractContent pages info).text_content := by
  refine ⟨?_, ?_, ?_, ?_, rfl, rfl⟩
  · calc (PDFProcessor.extractContent pages info).text_content.length
        ≤ (pageTexts pages).length := List.length_filter_le _ _
      _ = pages.length := by simp [pageTexts]
  · exact List.filter_sublist _
  · intro t ht
    have hp := List.of_mem_filter ht
    simpa [bne_iff_ne] using hp
  · intro i h hne
    apply List.mem_filter.mpr
    refine ⟨List.mem_map.mpr ⟨pages.get ⟨i, h⟩, List.get_mem pages i h, rfl⟩, ?_⟩
    simpa [bne_iff_ne] using hne

/-- Witness for `c5_pymupdf_text` at a concrete two-page document with a
blank second page. -/
theorem c5_pymupdf_text_witness :
    ("hello" : String) ∈ (PDFProcessor.extractContent c5Pages c5Info).text_content := by
  have h := (c5_pymupdf_text c5Pages c5Info "t").2.2.2.1 0 (by decide) (by decide)
  exact h

/-- Claim C6, confirmed: a Diffbot call that succeeds with zero extracted
objects, or that fails with an `aiohttp.ClientError`, makes
`_extract_content_diffbot` return exactly the result of
`_extract_content_fallback` on the same URL (`fb` is that result), within
the same request; any other exception propagates as a hard failure. -/
theorem c6_cloud_empty_fallback (fb : Except String WebEntContent) (m : String) :
    WebEnterpriseProcessor.extractContentDiffbot fb (.success []) = fb
    ∧ WebEnterpriseProcessor.extractContentDiffbot fb (.clientError m) = fb
    ∧ WebEnterpriseProcessor.extractContentDiffbot fb (.otherFailure m) = .error m :=
  ⟨rfl, rfl, rfl⟩

/-- Witness for `c6_cloud_empty_fallback` at a concrete fallback result. -/
theorem c6_cloud_empty_fallback_witness :
    WebEnterpriseProcessor.extractContentDiffbot (.error "fetch failed") (.success [])
      = .error "fetch failed"
    ∧ WebEnterpriseProcessor.extractContentDiffbot (.error "fetch failed") (.clientError "boom")
      = .error "fetch failed"
    ∧ WebEnterpriseProcessor.extractContentDiffbot (.error "fetch failed") (.otherFailure "boom")
      = .error "boom" :=
  c6_cloud_empty_fallback (.error "fetch failed") "boom"

/-- Claim C7 (code bug): on the cloud adapter's main path,
`_process_with_azure` returns no `images` key at all, so the record's
`images` field is always empty — the shared PyMuPDF raster routine
(`_extract_images_from_pdf`, which does produce images from the binary,
third conjunct) is never invoked from `process_pdf`. -/
theorem c7_azure_path_no_images :
    (∀ (res : AzureResult) (now : String),
       (PDFEnterpriseProcessor.processWithAzure res now).images = none)
    ∧ (∀ (res : AzureResult) (upload : String → String → String → Except String Unit)
         (filename docTs now now2 : String),
       ∃ r, PDFEnterpriseProcessor.processPdf false
              (.ok (PDFEnterpriseProcessor.processWithAzure res now)) false upload
              filename docTs now2 = .ok r
            ∧ r.images = [])
    ∧ extractImagesFromPdf [{ text := "t", images := [some ("IMG", "png")] }] =
        [{ data := "IMG", ext := "png", page := 1, index := 1 }] := by
  refine ⟨fun _ _ => rfl, ?_, by decide⟩
  intro res upload filename docTs now now2
  exact ⟨_, rfl, rfl⟩

/-- Claim C8, confirmed: a non-200 fetch in the local web adapter raises
`HTTP Error {status}: {reason}` and the whole request fails with that
error — the `WebProcessor` embedding contains no other engine, so no
fallback is attempted. -/
theorem c8_non200_fatal (urljoin : String → String → String) (url : String)
    (resp : FetchResponse) (hasStorage : Bool) (upload : String → String → Except String Unit)
    (docId now : String) (h : resp.status ≠ 200) :
    WebProcessor.processWebpage urljoin url resp hasStorage upload docId now =
      .error ("HTTP Error " ++ toString resp.status ++ ": " ++ resp.reason) := by
  unfold WebProcessor.processWebpage WebProcessor.extractContent
  rw [if_pos h]
  rfl

/-- Witness for `c8_non200_fatal` at a concrete 404 response. -/
theorem c8_non200_fatal_witness :
    WebProcessor.processWebpage (fun _ r => r) "u" c8Resp false c8Upload "d" "t" =
      .error ("HTTP Error " ++ toString c8Resp.status ++ ": " ++ c8Resp.reason) :=
  c8_non200_fatal (fun _ r => r) "u" c8Resp false c8Upload "d" "t" (by decide)

/-- Claim C9, confirmed: `StorageHandler.upload` on a dictionary stores
the JSON serialization of the dictionary with content type
`application/json`, whatever content type the caller passed, and on
success returns the `file_path` argument unchanged. -/
theorem c9_upload_dict (s3put : String → String → String → Except String Unit)
    (d : List (String × JsonVal)) (path ct : String) :
    StorageHandler.upload s3put (.dict d) path ct
      = (s3put (jsonDumps d) path "application/json").bind (fun _ => .ok path)
    ∧ uploadPayload (.dict d) ct = (jsonDumps d, "application/json")
    ∧ (s3put (jsonDumps d) path "application/json" = .ok () →
        StorageHandler.upload s3put (.dict d) path ct = .ok path) := by
  refine ⟨rfl, rfl, fun h => ?_⟩
  show (s3put (jsonDumps d) path "application/json").bind (fun _ => Except.ok path) = .ok path
  rw [h]
  rfl

/-- Witness for `c9_upload_dict` at a concrete dictionary and succeeding
S3 client. -/
theorem c9_upload_dict_witness :
    StorageHandler.upload c9S3 (.dict [("a", .str "b")]) "k" "text/plain" = .ok "k" :=
  (c9_upload_dict c9S3 [("a", .str "b")] "k" "text/plain").2.2 rfl

/-- Claim C10, confirmed: the local web adapter's tables never contain an
empty table or an empty row (a `<tr>` without cells contributes no row, a
`<table>` without kept rows contributes no table), and every text entry
is non-empty after whitespace trimming. -/
theorem c10_web_local_nonempty (urljoin : String → String → String) (url : String)
    (resp : FetchResponse) (c : WebOsContent)
    (h : WebProcessor.extractContent urljoin url resp = .ok c) :
    (∀ tbl ∈ c.tables, tbl ≠ [] ∧ ∀ row ∈ tbl, row ≠ [])
    ∧ (∀ t ∈ c.text_content, t ≠ "" ∧ pyStrip t ≠ "") := by
  unfold WebProcessor.extractContent at h
  by_cases h200 : resp.status ≠ 200
  · rw [if_pos h200] at h
    exact absurd h (by simp)
  · rw [if_neg h200] at h
    injection h with h2
    subst h2
    constructor
    · intro tbl htbl
      dsimp only at htbl
      unfold extractHtmlTables at htbl
      have h1 := List.mem_filter.mp htbl
      constructor
      · intro hnil
        rw [hnil] at h1
        simp at h1
      · intro row hrow
        obtain ⟨t0, _, hteq⟩ := List.mem_map.mp h1.1
        rw [← hteq] at hrow
        have h3 := List.mem_filter.mp hrow
        intro hnil
        rw [hnil] at h3
        simp at h3
    · intro t ht
      dsimp only at ht
      unfold extractTextBlocks at ht
      obtain ⟨b, _, hfb⟩ := List.mem_filterMap.mp ht
      by_cases hs : pyStrip b = ""
      · simp only [hs, if_pos] at hfb
        exact absurd hfb (by simp)
      · simp only [if_neg hs] at hfb
        injection hfb with hfb2
        constructor
        · rw [← hfb2]; exact hs
        · rw [← hfb2, pyStrip_idem]; exact hs

/-- Witness for `c10_web_local_nonempty` at a concrete page with an empty
row, an empty table and a blank text block, all of which are dropped. -/
theorem c10_web_local_nonempty_witness :
    (∀ tbl ∈ c10Content.tables, tbl ≠ [] ∧ ∀ row ∈ tbl, row ≠ [])
    ∧ (∀ t ∈ c10Content.text_content, t ≠ "" ∧ pyStrip t ≠ "") :=
  c10_web_local_nonempty (fun _ r => r) "u" c10Resp c10Content rfl
